import Mathlib

/-!
Shallow embedding of the mcp-time-server repository (src/mcp_time_server/server.py and
src/mcp_time_server/api.py), together with proofs about the embedded operations.

Conventions of the embedding:
* Machine clock instants are modelled as `Int` (epoch seconds); each operation that reads
  the clock takes the captured instant as an explicit argument `now`.
* A `zoneinfo.ZoneInfo` object is modelled as a `Zone`: its IANA key together with the
  functions the code queries on an aware datetime built from it (`utcoffset()` and
  `dst()`, both returning a whole number of seconds or `None`, and `isoformat()`).
* The platform (the `zoneinfo` module: the `ZoneInfo` constructor and
  `available_timezones()`) is a parameter of every operation, modelled by `Platform`.
* Python exceptions are values of `PyErr`; fallible code returns `Except PyErr _`.
  The repository's own exception classes `TimeZoneError` and `ConfigurationError` are
  imported from `mcp_time_server.exceptions`; that module defines them as plain
  `Exception` subclasses carrying a message (so `str(e)` is the message).
-/

/-- Python exception values as far as this program distinguishes them.
`timeZoneError` and `configurationError` are the repository's two domain exception
classes (from `mcp_time_server.exceptions`, plain Exception subclasses whose `str` is
the message they were raised with). `zoneInfoNotFound` is `zoneinfo.ZoneInfoNotFoundError`;
`valueError` is the builtin `ValueError` (which CPython's `ZoneInfo` constructor raises
for malformed keys, e.g. keys that are absolute paths or contain relative-path
traversal); `attributeError` is the builtin `AttributeError`; `otherError` stands for
any further exception kind. -/
inductive PyErr where
  | timeZoneError (msg : String)
  | configurationError (msg : String)
  | zoneInfoNotFound (msg : String)
  | valueError (msg : String)
  | attributeError (msg : String)
  | otherError (msg : String)
deriving DecidableEq

/-- `str(e)`: the message the exception was raised with. -/
def PyErr.str : PyErr → String
  | PyErr.timeZoneError m => m
  | PyErr.configurationError m => m
  | PyErr.zoneInfoNotFound m => m
  | PyErr.valueError m => m
  | PyErr.attributeError m => m
  | PyErr.otherError m => m

/-- `isinstance(e, TimeZoneError)`. -/
def PyErr.isTimeZoneError : PyErr → Bool
  | PyErr.timeZoneError _ => true
  | _ => false

/-- `isinstance(e, ConfigurationError)`. -/
def PyErr.isConfigurationError : PyErr → Bool
  | PyErr.configurationError _ => true
  | _ => false

/-- `isinstance(e, ZoneInfoNotFoundError)`. -/
def PyErr.isZoneInfoNotFound : PyErr → Bool
  | PyErr.zoneInfoNotFound _ => true
  | _ => false

/-- Whether a call produced a value (did not raise). -/
def okBool {α : Type} : Except PyErr α → Bool
  | Except.ok _ => true
  | Except.error _ => false

/-- Whether a call raised an exception that is a `TimeZoneError`. -/
def raisedTimeZoneError {α : Type} : Except PyErr α → Bool
  | Except.ok _ => false
  | Except.error e => e.isTimeZoneError

/-- A constructed `zoneinfo.ZoneInfo` object: its IANA key (`str(tz)` returns exactly
the key) and the per-instant queries the code performs on `datetime.datetime.now(tz)`.
`utcoffsetSeconds t` is `now.utcoffset()` at instant `t` — a whole number of seconds
(TZif data has one-second resolution) or `none` (Python `None`). `dstSeconds t` is
`now.dst()` at instant `t`. `isoformat t` is `now.isoformat()` at instant `t`. -/
structure Zone where
  key : String
  utcoffsetSeconds : Int → Option Int
  dstSeconds : Int → Option Int
  isoformat : Int → String

/-- The platform `zoneinfo` module as the program uses it: the `ZoneInfo` constructor
(which returns a zone object or raises — `ZoneInfoNotFoundError` for unknown keys,
`ValueError` for malformed keys, per the CPython documentation) and
`available_timezones()` (a set of identifier strings, modelled by the list of its
elements). -/
structure Platform where
  ZoneInfo : String → Except PyErr Zone
  available_timezones : List String

/-- The state of a constructed `TimeServer` instance: the attributes assigned in
`__init__` that the two operations read (`self.server`, the MCP protocol object, is
opaque glue and carries no state the embedded operations consult). -/
structure TimeServer where
  _default_tz : Zone
  _available_zones : List String

/-- The dict returned by `TimeServer._get_time` (the TimeDescriptor).
`timestamp` is `now.timestamp()`: the captured instant in epoch seconds (a float in
Python; its value equals the captured instant, which this embedding keeps integral). -/
structure TimeDescriptor where
  timestamp : Int
  iso_time : String
  timezone : String
  timezone_offset : Int
  is_dst : Bool
deriving DecidableEq

/-- The dict returned by `TimeServer._get_available_timezones`. -/
structure ZonesResult where
  timezones : List String
  count : Nat
deriving DecidableEq

/-- Python truthiness of the optional `timezone` argument: `None` and the empty
string are falsy, every other string is truthy. -/
def pyTruthy : Option String → Bool
  | none => false
  | some s => !s.isEmpty

/-- Python string formatting of the optional argument inside an f-string:
`None` prints as the four characters None, a string prints as itself. -/
def pyStrOf : Option String → String
  | none => "None"
  | some s => s

/-- `int(utc_offset.total_seconds() / 60)` for a timedelta holding `secs` whole
seconds: true division followed by `int(...)`, which truncates toward zero. On whole
seconds this equals exact integer division truncated toward zero (`Int.tdiv`); the
float quotient is exact enough at timezone-offset magnitudes that `int` truncation
agrees with it. -/
def pyIntTruncDiv (secs : Int) (den : Int) : Int := Int.tdiv secs den

/-- Python codepoint-lexicographic string comparison (`<=`) on the underlying
character lists: the order `sorted` uses for strings. -/
def lexLe : List Char → List Char → Bool
  | [], _ => true
  | _ :: _, [] => false
  | a :: as, b :: bs => if a < b then true else if b < a then false else lexLe as bs

/-- Python codepoint-lexicographic strict comparison on character lists. -/
def lexLt : List Char → List Char → Bool
  | [], [] => false
  | [], _ :: _ => true
  | _ :: _, [] => false
  | a :: as, b :: bs => if a < b then true else if b < a then false else lexLt as bs

/-- Python `s <= t` on strings (codepoint lexicographic). -/
def pyStrLe (s t : String) : Bool := lexLe s.data t.data

/-- Python `s < t` on strings (codepoint lexicographic). -/
def pyStrLt (s t : String) : Bool := lexLt s.data t.data

/-- `TimeServer.__init__(default_timezone)` (server.py lines 17-35):
constructs `ZoneInfo(default_timezone)` and snapshots `available_timezones()` inside a
`try` whose `except ZoneInfoNotFoundError` re-raises as
`ConfigurationError(f"Invalid default timezone: ...")`. A constructor failure of any
other kind is not caught and propagates. -/
def TimeServer.__init__ (p : Platform) (default_timezone : String) : Except PyErr TimeServer :=
  match p.ZoneInfo default_timezone with
  | Except.ok z =>
      Except.ok { _default_tz := z, _available_zones := p.available_timezones }
  | Except.error (PyErr.zoneInfoNotFound _) =>
      Except.error (PyErr.configurationError ("Invalid default timezone: " ++ default_timezone))
  | Except.error e => Except.error e

/-- `TimeServer._get_time(timezone)` (server.py lines 100-133), statement by statement:
`tz = ZoneInfo(timezone) if timezone else self._default_tz`;
`if timezone and timezone not in self._available_zones: raise TimeZoneError(f"Unknown timezone: ...")`;
`now = datetime.datetime.now(tz)` (captures the instant `now`);
`utc_offset = now.utcoffset()`; `if utc_offset is None: raise TimeZoneError(f"Invalid timezone offset for ...")`;
`offset_minutes = int(utc_offset.total_seconds() / 60)`; then the result dict, with
`is_dst = now.dst() is not None and now.dst() != datetime.timedelta(0)`.
The whole body sits in a `try` whose `except ZoneInfoNotFoundError` re-raises as
`TimeZoneError(f"Invalid timezone: ...")`; any other exception propagates unchanged. -/
def TimeServer._get_time (self : TimeServer) (p : Platform) (now : Int)
    (timezone : Option String) : Except PyErr TimeDescriptor :=
  let body : Except PyErr TimeDescriptor :=
    match (if pyTruthy timezone then p.ZoneInfo (pyStrOf timezone)
           else Except.ok self._default_tz) with
    | Except.error e => Except.error e
    | Except.ok tz =>
      if pyTruthy timezone && !(self._available_zones.contains (pyStrOf timezone)) then
        Except.error (PyErr.timeZoneError ("Unknown timezone: " ++ pyStrOf timezone))
      else
        match tz.utcoffsetSeconds now with
        | none =>
            Except.error (PyErr.timeZoneError ("Invalid timezone offset for " ++ pyStrOf timezone))
        | some secs =>
            Except.ok { timestamp := now
                        iso_time := tz.isoformat now
                        timezone := tz.key
                        timezone_offset := pyIntTruncDiv secs 60
                        is_dst := ((tz.dstSeconds now).isSome && !((tz.dstSeconds now) == some 0)) }
  match body with
  | Except.error (PyErr.zoneInfoNotFound _) =>
      Except.error (PyErr.timeZoneError ("Invalid timezone: " ++ pyStrOf timezone))
  | r => r

/-- `TimeServer._get_available_timezones()` (server.py lines 135-144):
`{"timezones": sorted(list(self._available_zones)), "count": len(self._available_zones)}`.
`self._available_zones` is a set, modelled by the list of its elements; Python `sorted`
on strings orders by codepoint-lexicographic `<` (a total order on which any correct
sort, here insertion sort, computes the same output as timsort — stability is
irrelevant because equal strings are identical). -/
def TimeServer._get_available_timezones (self : TimeServer) : ZonesResult :=
  { timezones := List.insertionSort (fun a b => pyStrLe a b = true) self._available_zones
    count := self._available_zones.length }

/-- `TimeServer.serve(...)` (server.py lines 146-165): runs the stdio transport
(an external call, modelled by its outcome `transport`) inside a `try` whose
`except Exception` re-raises as `ConfigurationError(f"Failed to start server: {e}")`. -/
def TimeServer.serve (_self : TimeServer) (transport : Except PyErr Unit) : Except PyErr Unit :=
  match transport with
  | Except.ok u => Except.ok u
  | Except.error e =>
      Except.error (PyErr.configurationError ("Failed to start server: " ++ e.str))

/-- The attribute names bound on a constructed `TimeServer` instance: the instance
attributes assigned in `__init__` plus the methods of the class body in server.py.
There is no attribute named get_time and none named get_available_timezones. -/
def timeServerInstanceAttrs : List String :=
  ["_default_tz", "_available_zones", "server",
   "__init__", "_setup_mcp_handlers", "_get_time", "_get_available_timezones", "serve"]

/-- Python attribute lookup plus call, `getattr(time_server, name)(timezone)`, for the
descriptor-returning method the HTTP layer wants: the class defines `_get_time` (looked
up and called), and looking up a name that is not among the instance's attributes
raises `AttributeError`. In particular api.py invokes the name get_time, which
server.py does not define. -/
def timeServerCallTimeMethod (self : TimeServer) (p : Platform) (now : Int)
    (name : String) (timezone : Option String) : Except PyErr TimeDescriptor :=
  if name = "_get_time" then self._get_time p now timezone
  else Except.error (PyErr.attributeError
    ("TimeServer object has no attribute " ++ name))

/-- A JSON response body as api.py produces it: either the serialized time dict or the
error envelope built by `web.json_response(\x7b"error": str(e)\x7d, ...)`. -/
inductive JsonBody where
  | descriptor (d : TimeDescriptor)
  | errorObj (msg : String)
deriving DecidableEq

/-- An `aiohttp` response as api.py builds it: status code plus JSON body. -/
structure HttpResponse where
  status : Nat
  body : JsonBody
deriving DecidableEq

/-- `TimeServerAPI.get_time_zone` (api.py lines 44-64), the handler for
`GET /time/{timezone}`: reads the matched path segment, calls
`self.time_server.get_time(timezone)` (note the attribute name), returns 200 with the
result on success, 400 with the error envelope on `TimeZoneError`, and 500 with the
error envelope on any other exception. -/
def TimeServerAPI.get_time_zone (self : TimeServer) (p : Platform) (now : Int)
    (timezone : String) : HttpResponse :=
  match timeServerCallTimeMethod self p now "get_time" (some timezone) with
  | Except.ok result => { status := 200, body := JsonBody.descriptor result }
  | Except.error e =>
      if e.isTimeZoneError then { status := 400, body := JsonBody.errorObj e.str }
      else { status := 500, body := JsonBody.errorObj e.str }

/-- The zone `_get_time` resolves for a given argument: the one built by the platform
constructor when the argument is truthy, the stored default otherwise (server.py
line 113). -/
def resolvesTo (self : TimeServer) (p : Platform) (timezone : Option String) (z : Zone) : Prop :=
  if pyTruthy timezone then p.ZoneInfo (pyStrOf timezone) = Except.ok z
  else z = self._default_tz

/-- A decidable well-formedness property of the platform snapshot at an instant,
matching the spec's TimeZoneCatalog invariant: every listed identifier is non-empty
and the constructor builds from it a zone whose key is that identifier and whose UTC
offset at the instant is defined. -/
def Platform.wellFormedAt (p : Platform) (now : Int) : Bool :=
  p.available_timezones.all fun id =>
    !id.isEmpty &&
      (match p.ZoneInfo id with
       | Except.ok z => z.key == id && (z.utcoffsetSeconds now).isSome
       | Except.error _ => false)

/-- A UTC zone object: `str` key UTC, offset 0 and a zero DST adjustment at every
instant, as CPython's `ZoneInfo` for the key UTC reports. -/
def utcZone : Zone :=
  { key := "UTC"
    utcoffsetSeconds := fun _ => some 0
    dstSeconds := fun _ => some 0
    isoformat := fun _ => "1970-01-01T00:00:00+00:00" }

/-- An America/New_York zone object during daylight saving time: offset -4 hours,
DST adjustment one hour. -/
def nyZone : Zone :=
  { key := "America/New_York"
    utcoffsetSeconds := fun _ => some (-14400)
    dstSeconds := fun _ => some 3600
    isoformat := fun _ => "1969-12-31T20:00:00-04:00" }

/-- A concrete platform used by the witnesses: two installed zones. -/
def testPlatform : Platform :=
  { ZoneInfo := fun s =>
      if s = "UTC" then Except.ok utcZone
      else if s = "America/New_York" then Except.ok nyZone
      else Except.error (PyErr.zoneInfoNotFound ("No time zone found with key " ++ s))
    available_timezones := ["UTC", "America/New_York"] }

/-- The instance `TimeServer(testPlatform, "UTC")` constructs. -/
def sampleServer : TimeServer :=
  { _default_tz := utcZone, _available_zones := ["UTC", "America/New_York"] }

/-- An instance whose stored default zone's key is absent from its catalog snapshot
(exercises the default path's independence from catalog membership). -/
def offCatalogServer : TimeServer :=
  { _default_tz := nyZone, _available_zones := ["UTC"] }

/-- A platform exhibiting the CPython-documented behaviour of the `ZoneInfo`
constructor on malformed keys: a key containing relative-path traversal raises
`ValueError`, not `ZoneInfoNotFoundError`. -/
def traversalPlatform : Platform :=
  { ZoneInfo := fun s =>
      if s = "../Etc/UTC" then
        Except.error (PyErr.valueError "ZoneInfo keys may not be relative paths")
      else if s = "UTC" then Except.ok utcZone
      else Except.error (PyErr.zoneInfoNotFound ("No time zone found with key " ++ s))
    available_timezones := ["UTC"] }

theorem lexLe_total : ∀ as bs, lexLe as bs = true ∨ lexLe bs as = true
  | [], _ => Or.inl rfl
  | _ :: _, [] => Or.inr rfl
  | a :: as, b :: bs => by
    rcases lt_trichotomy a b with h | h | h
    · exact Or.inl (by simp [lexLe, h])
    · subst h
      rcases lexLe_total as bs with ih | ih
      · exact Or.inl (by simp [lexLe, lt_irrefl, ih])
      · exact Or.inr (by simp [lexLe, lt_irrefl, ih])
    · exact Or.inr (by simp [lexLe, h])

theorem lexLe_trans : ∀ as bs cs,
    lexLe as bs = true → lexLe bs cs = true → lexLe as cs = true
  | [], _, _, _, _ => rfl
  | _ :: _, [], _, h1, _ => by simp [lexLe] at h1
  | _ :: _, _ :: _, [], _, h2 => by simp [lexLe] at h2
  | a :: as, b :: bs, c :: cs, h1, h2 => by
    by_cases hab : a < b
    · by_cases hbc : b < c
      · simp [lexLe, lt_trans hab hbc]
      · by_cases hcb : c < b
        · simp [lexLe, hbc, hcb] at h2
        · have hbc' : b = c := le_antisymm (not_lt.mp hcb) (not_lt.mp hbc)
          subst hbc'
          simp [lexLe, hab]
    · by_cases hba : b < a
      · simp [lexLe, hab, hba] at h1
      · have hab' : a = b := le_antisymm (not_lt.mp hba) (not_lt.mp hab)
        subst hab'
        by_cases hac : a < c
        · simp [lexLe, hac]
        · by_cases hca : c < a
          · simp [lexLe, hac, hca] at h2
          · simp [lexLe, hab, hac, hca] at h1 h2 ⊢
            exact lexLe_trans as bs cs h1 h2

theorem lexLe_antisymm : ∀ as bs, lexLe as bs = true → lexLe bs as = true → as = bs
  | [], [], _, _ => rfl
  | [], _ :: _, _, h2 => by simp [lexLe] at h2
  | _ :: _, [], h1, _ => by simp [lexLe] at h1
  | a :: as, b :: bs, h1, h2 => by
    by_cases hab : a < b
    · simp [lexLe, hab, lt_asymm hab] at h2
    · by_cases hba : b < a
      · simp [lexLe, hab, hba] at h1
      · have hab' : a = b := le_antisymm (not_lt.mp hba) (not_lt.mp hab)
        subst hab'
        simp [lexLe, lt_irrefl] at h1 h2
        rw [lexLe_antisymm as bs h1 h2]

theorem lexLt_of_lexLe_of_ne : ∀ as bs, lexLe as bs = true → as ≠ bs → lexLt as bs = true
  | [], [], _, hne => absurd rfl hne
  | [], _ :: _, _, _ => rfl
  | _ :: _, [], h1, _ => by simp [lexLe] at h1
  | a :: as, b :: bs, h1, hne => by
    by_cases hab : a < b
    · simp [lexLt, hab]
    · by_cases hba : b < a
      · simp [lexLe, hab, hba] at h1
      · have hab' : a = b := le_antisymm (not_lt.mp hba) (not_lt.mp hab)
        subst hab'
        simp [lexLe, lt_irrefl] at h1
        have hne' : as ≠ bs := fun h => hne (by rw [h])
        simp [lexLt, lt_irrefl]
        exact lexLt_of_lexLe_of_ne as bs h1 hne'

instance : IsTotal String (fun a b => pyStrLe a b = true) :=
  ⟨fun a b => lexLe_total a.data b.data⟩

instance : IsTrans String (fun a b => pyStrLe a b = true) :=
  ⟨fun a b c => lexLe_trans a.data b.data c.data⟩

theorem pyStrLt_of_pyStrLe_of_ne (a b : String) (h : pyStrLe a b = true) (hne : a ≠ b) :
    pyStrLt a b = true :=
  lexLt_of_lexLe_of_ne a.data b.data h (fun hd => hne (String.ext hd))

theorem contains_iff_mem_str (l : List String) (a : String) :
    l.contains a = true ↔ a ∈ l := by
  induction l with
  | nil => simp
  | cons b bs ih => simp [List.contains_cons, ih]

theorem TimeServer.get_time_ok_iff (self : TimeServer) (p : Platform) (now : Int)
    (timezone : Option String) (d : TimeDescriptor) :
    self._get_time p now timezone = Except.ok d ↔
      ∃ z, resolvesTo self p timezone z
        ∧ (pyTruthy timezone = true →
            self._available_zones.contains (pyStrOf timezone) = true)
        ∧ ∃ secs, z.utcoffsetSeconds now = some secs
          ∧ d = { timestamp := now
                  iso_time := z.isoformat now
                  timezone := z.key
                  timezone_offset := pyIntTruncDiv secs 60
                  is_dst := ((z.dstSeconds now).isSome && !((z.dstSeconds now) == some 0)) } := by
  unfold TimeServer._get_time resolvesTo
  cases htz : pyTruthy timezone
  · simp only [htz, Bool.false_eq_true, if_false, Bool.false_and, false_implies, true_and]
    cases hoff : self._default_tz.utcoffsetSeconds now
    · simp [hoff]
    · simp [hoff, eq_comm]
  · simp only [htz, if_true, Bool.true_and, true_implies]
    cases hzi : p.ZoneInfo (pyStrOf timezone)
    case error e =>
      cases e <;> simp [hzi]
    case ok z =>
      cases hmem : self._available_zones.contains (pyStrOf timezone)
      · simp [hzi, hmem]
      · simp only [hzi, hmem, Bool.not_true, Bool.and_false, if_false, Bool.true_eq_false]
        cases hoff : z.utcoffsetSeconds now
        · simp [hoff]
        · simp [hoff, eq_comm]

theorem resolvesTo_unique (self : TimeServer) (p : Platform) (tz : Option String)
    (z z' : Zone) (h : resolvesTo self p tz z) (h' : resolvesTo self p tz z') : z = z' := by
  unfold resolvesTo at h h'
  cases htz : pyTruthy tz <;> simp only [htz, if_true, if_false,
    Bool.false_eq_true, Bool.true_eq_false] at h h'
  · rw [h, h']
  · rw [h] at h'
    injection h'

theorem TimeServer.get_time_error_shapes (self : TimeServer) (p : Platform) (now : Int)
    (tz : Option String) (e : PyErr)
    (h : self._get_time p now tz = Except.error e) :
    e.isTimeZoneError = true
    ∨ ∃ e0, p.ZoneInfo (pyStrOf tz) = Except.error e0 ∧ e = e0
        ∧ e0.isZoneInfoNotFound = false := by
  unfold TimeServer._get_time at h
  cases htz : pyTruthy tz
  · simp [htz] at h
    cases hoff : self._default_tz.utcoffsetSeconds now
    · rw [hoff] at h
      simp at h
      subst h
      exact Or.inl rfl
    · rw [hoff] at h
      simp at h
  · simp [htz] at h
    cases hzi : p.ZoneInfo (pyStrOf tz)
    case error e0 =>
      rw [hzi] at h
      cases e0
      case timeZoneError m =>
        simp at h
        subst h
        exact Or.inl rfl
      case configurationError m =>
        simp at h
        subst h
        exact Or.inr ⟨_, rfl, rfl, rfl⟩
      case zoneInfoNotFound m =>
        simp at h
        subst h
        exact Or.inl rfl
      case valueError m =>
        simp at h
        subst h
        exact Or.inr ⟨_, rfl, rfl, rfl⟩
      case attributeError m =>
        simp at h
        subst h
        exact Or.inr ⟨_, rfl, rfl, rfl⟩
      case otherError m =>
        simp at h
        subst h
        exact Or.inr ⟨_, rfl, rfl, rfl⟩
    case ok z =>
      rw [hzi] at h
      simp at h
      by_cases hmem : pyStrOf tz ∈ self._available_zones
      · rw [if_pos hmem] at h
        cases hoff : z.utcoffsetSeconds now
        · rw [hoff] at h
          simp at h
          subst h
          exact Or.inl rfl
        · rw [hoff] at h
          simp at h
      · rw [if_neg hmem] at h
        simp at h
        subst h
        exact Or.inl rfl

theorem PyErr.not_configuration_of_timeZone (e : PyErr) (h : e.isTimeZoneError = true) :
    e.isConfigurationError = false := by
  cases e <;> simp_all [PyErr.isTimeZoneError, PyErr.isConfigurationError]

theorem tmod_neg_left (a b : Int) : Int.tmod (-a) b = -(Int.tmod a b) := by
  rw [Int.tmod_def, Int.tmod_def, Int.neg_tdiv]
  ring

theorem tmod_sixty_bounds (s : Int) :
    (-60 < Int.tmod s 60 ∧ Int.tmod s 60 < 60)
    ∧ (0 ≤ s → 0 ≤ Int.tmod s 60) ∧ (s ≤ 0 → Int.tmod s 60 ≤ 0) := by
  rcases le_or_lt 0 s with h | h
  · have h1 : 0 ≤ Int.tmod s 60 := Int.tmod_nonneg 60 h
    have h2 : Int.tmod s 60 < 60 := Int.tmod_lt_of_pos s (by norm_num)
    refine ⟨⟨by linarith, h2⟩, fun _ => h1, fun hs => ?_⟩
    have hz : s = 0 := le_antisymm hs h
    subst hz
    simp
  · have hneg : 0 ≤ -s := by linarith
    have h1 : 0 ≤ Int.tmod (-s) 60 := Int.tmod_nonneg 60 hneg
    have h2 : Int.tmod (-s) 60 < 60 := Int.tmod_lt_of_pos (-s) (by norm_num)
    have heq : Int.tmod s 60 = -(Int.tmod (-s) 60) := by
      have := tmod_neg_left (-s) 60
      rw [neg_neg] at this
      exact this
    refine ⟨⟨by linarith, by linarith⟩, fun hs => ?_, fun _ => by linarith⟩
    linarith

/-- C1: the claim's 200/400/500 split for GET /time/... does not hold on the code.
The handler looks up the attribute named get_time on the TimeServer instance, but
server.py defines the method under the name _get_time, so every request — whatever
the zone — raises AttributeError inside the handler and is answered 500 with the error
envelope, never 200 and never 400. This contradicts the repository's own tests
(test_api.py expects 200 for America/New_York and 400 for an invalid zone), so the
code, not the claim, is at fault. (Messages are modelled without Python's quote
characters.) -/
theorem api_get_time_zone_always_500 (self : TimeServer) (p : Platform) (now : Int)
    (z : String) :
    TimeServerAPI.get_time_zone self p now z
      = { status := 500
          body := JsonBody.errorObj "TimeServer object has no attribute get_time" } := rfl

/-- C2 counterexample: `serve` is an operation available after successful construction
(here the construction is exhibited), and it wraps a failed transport start in
ConfigurationError (server.py lines 146-165), so ConfigurationError is not raised only
during construction. -/
theorem serve_configuration_error_counterexample :
    TimeServer.__init__ testPlatform "UTC" = Except.ok sampleServer
    ∧ TimeServer.serve sampleServer (Except.error (PyErr.otherError "boom"))
        = Except.error (PyErr.configurationError "Failed to start server: boom")
    ∧ PyErr.isConfigurationError (PyErr.configurationError "Failed to start server: boom")
        = true :=
  ⟨rfl, rfl, rfl⟩

/-- C2 (amended): ConfigurationError is raised at construction when the default
identifier is invalid, and `resolveTime` never raises it afterwards (given that the
platform constructor itself never raises the repository's ConfigurationError class —
true of CPython's zoneinfo, which does not know that class) and `listTimezones` is
total by construction; but `serve`, an operation available after successful
construction, wraps any transport startup failure in ConfigurationError. -/
theorem configuration_error_scope (self : TimeServer) (p : Platform) (now : Int)
    (tz : Option String)
    (hp : ∀ e, p.ZoneInfo (pyStrOf tz) = Except.error e → e.isConfigurationError = false) :
    (∀ e, self._get_time p now tz = Except.error e → e.isConfigurationError = false)
    ∧ (∀ e, TimeServer.serve self (Except.error e)
        = Except.error (PyErr.configurationError ("Failed to start server: " ++ e.str)))
    ∧ TimeServer.serve self (Except.ok ()) = Except.ok () := by
  refine ⟨?_, fun e => rfl, rfl⟩
  intro e he
  rcases TimeServer.get_time_error_shapes self p now tz e he with h | ⟨e0, hz, he0, _⟩
  · exact PyErr.not_configuration_of_timeZone e h
  · rw [he0]
    exact hp e0 hz

theorem configuration_error_scope_witness :
    (∀ e, testPlatform.ZoneInfo (pyStrOf (some "UTC")) = Except.error e →
        e.isConfigurationError = false)
    ∧ ((∀ e, sampleServer._get_time testPlatform 0 (some "UTC") = Except.error e →
          e.isConfigurationError = false)
       ∧ (∀ e, TimeServer.serve sampleServer (Except.error e)
            = Except.error (PyErr.configurationError ("Failed to start server: " ++ e.str)))
       ∧ TimeServer.serve sampleServer (Except.ok ()) = Except.ok ()) :=
  ⟨fun e h => by simp [testPlatform, pyStrOf] at h,
   configuration_error_scope sampleServer testPlatform 0 (some "UTC")
     (fun e h => by simp [testPlatform, pyStrOf] at h)⟩

/-- C3 counterexample: with the constructor behaviour CPython documents for malformed
keys (ValueError rather than ZoneInfoNotFoundError), `resolveTime` on the present
(non-empty) invalid identifier ../Etc/UTC propagates the ValueError unchanged: the
call fails, but not with TimeZoneError, so an exception kind other than TimeZoneError
escapes for an invalid identifier. -/
theorem get_time_valueerror_escapes_counterexample :
    sampleServer._get_time traversalPlatform 0 (some "../Etc/UTC")
      = Except.error (PyErr.valueError "ZoneInfo keys may not be relative paths")
    ∧ raisedTimeZoneError (sampleServer._get_time traversalPlatform 0 (some "../Etc/UTC"))
        = false
    ∧ okBool (sampleServer._get_time traversalPlatform 0 (some "../Etc/UTC")) = false :=
  ⟨rfl, rfl, rfl⟩

/-- C3 (amended): for every present (non-empty) identifier, resolution succeeds only
if both independent checks pass (the constructor builds a zone AND the identifier is
in the catalog snapshot); a constructor not-found failure raises TimeZoneError
carrying the identifier, as does a catalog miss, but a constructor failure of any
other kind (such as the ValueError CPython raises for path-like keys) propagates
unchanged instead of becoming TimeZoneError. -/
theorem resolve_time_validation (self : TimeServer) (p : Platform) (now : Int)
    (s : String) (hs : s.isEmpty = false) :
    (∀ msg, p.ZoneInfo s = Except.error (PyErr.zoneInfoNotFound msg) →
        self._get_time p now (some s)
          = Except.error (PyErr.timeZoneError ("Invalid timezone: " ++ s)))
    ∧ (∀ e, p.ZoneInfo s = Except.error e → e.isZoneInfoNotFound = false →
        self._get_time p now (some s) = Except.error e)
    ∧ (∀ z, p.ZoneInfo s = Except.ok z → self._available_zones.contains s = false →
        self._get_time p now (some s)
          = Except.error (PyErr.timeZoneError ("Unknown timezone: " ++ s)))
    ∧ (okBool (self._get_time p now (some s)) = true →
        (∃ z, p.ZoneInfo s = Except.ok z) ∧ self._available_zones.contains s = true) := by
  have htz : pyTruthy (some s) = true := by simp [pyTruthy, hs]
  refine ⟨?_, ?_, ?_, ?_⟩
  · intro msg hz
    unfold TimeServer._get_time
    simp [htz, pyStrOf, hz]
  · intro e hz he
    unfold TimeServer._get_time
    cases e <;> simp_all [PyErr.isZoneInfoNotFound, htz, pyStrOf, hz]
  · intro z hz hmem
    unfold TimeServer._get_time
    have hmem' : s ∉ self._available_zones := by
      intro hin
      rw [(contains_iff_mem_str _ _).mpr hin] at hmem
      cases hmem
    simp [htz, pyStrOf, hz, hmem']
  · intro hok
    cases hres : self._get_time p now (some s)
    case error err => rw [hres] at hok; cases hok
    case ok d =>
      obtain ⟨z, hresz, hcont, _⟩ :=
        (TimeServer.get_time_ok_iff self p now (some s) d).mp hres
      unfold resolvesTo at hresz
      rw [htz] at hresz
      simp only [if_true] at hresz
      exact ⟨⟨z, hresz⟩, hcont htz⟩

theorem resolve_time_validation_witness :
    ("Mars/Phobos" : String).isEmpty = false
    ∧ ((∀ msg, testPlatform.ZoneInfo "Mars/Phobos"
          = Except.error (PyErr.zoneInfoNotFound msg) →
        sampleServer._get_time testPlatform 0 (some "Mars/Phobos")
          = Except.error (PyErr.timeZoneError ("Invalid timezone: " ++ "Mars/Phobos")))
       ∧ (∀ e, testPlatform.ZoneInfo "Mars/Phobos" = Except.error e →
            e.isZoneInfoNotFound = false →
            sampleServer._get_time testPlatform 0 (some "Mars/Phobos") = Except.error e)
       ∧ (∀ z, testPlatform.ZoneInfo "Mars/Phobos" = Except.ok z →
            sampleServer._available_zones.contains "Mars/Phobos" = false →
            sampleServer._get_time testPlatform 0 (some "Mars/Phobos")
              = Except.error (PyErr.timeZoneError ("Unknown timezone: " ++ "Mars/Phobos")))
       ∧ (okBool (sampleServer._get_time testPlatform 0 (some "Mars/Phobos")) = true →
            (∃ z, testPlatform.ZoneInfo "Mars/Phobos" = Except.ok z)
            ∧ sampleServer._available_zones.contains "Mars/Phobos" = true)) :=
  ⟨by decide, resolve_time_validation sampleServer testPlatform 0 "Mars/Phobos" (by decide)⟩

/-- C4: every identifier in the sequence returned by listTimezones resolves
successfully and the descriptor's timezone field equals that identifier, under the
spec's TimeZoneCatalog invariant (`wellFormedAt`): each snapshot member is non-empty
and the platform constructor builds from it a zone keyed by the identifier itself
whose UTC offset at the instant is defined. -/
theorem listed_timezones_resolve (p : Platform) (dtz : String) (self : TimeServer)
    (now : Int) (hinit : TimeServer.__init__ p dtz = Except.ok self)
    (hwf : p.wellFormedAt now = true) :
    ∀ id ∈ (self._get_available_timezones).timezones,
      ∃ d, self._get_time p now (some id) = Except.ok d ∧ d.timezone = id := by
  have hz : self._available_zones = p.available_timezones := by
    unfold TimeServer.__init__ at hinit
    cases hzi : p.ZoneInfo dtz <;> rw [hzi] at hinit
    case error e => cases e <;> simp at hinit
    case ok z =>
      injection hinit with h
      rw [← h]
  intro id hid
  simp only [TimeServer._get_available_timezones] at hid
  have hmem : id ∈ self._available_zones :=
    (List.perm_insertionSort (fun a b => pyStrLe a b = true)
      self._available_zones).mem_iff.mp hid
  unfold Platform.wellFormedAt at hwf
  have hwf' := (List.all_eq_true.mp hwf) id (by rwa [hz] at hmem)
  rw [Bool.and_eq_true] at hwf'
  obtain ⟨hne, hmatch⟩ := hwf'
  cases hzi : p.ZoneInfo id <;> rw [hzi] at hmatch
  case error e => cases hmatch
  case ok z =>
    rw [Bool.and_eq_true] at hmatch
    obtain ⟨hkey, hoffs⟩ := hmatch
    obtain ⟨secs, hoff⟩ := Option.isSome_iff_exists.mp hoffs
    have htr : pyTruthy (some id) = true := hne
    refine ⟨_, (TimeServer.get_time_ok_iff self p now (some id) _).mpr
      ⟨z, ?_, ?_, secs, hoff, rfl⟩, ?_⟩
    · unfold resolvesTo
      rw [htr]
      simpa [pyStrOf] using hzi
    · intro _
      exact (contains_iff_mem_str _ _).mpr hmem
    · exact eq_of_beq hkey

theorem listed_timezones_resolve_witness :
    TimeServer.__init__ testPlatform "UTC" = Except.ok sampleServer
    ∧ testPlatform.wellFormedAt 0 = true
    ∧ (∀ id ∈ (sampleServer._get_available_timezones).timezones,
        ∃ d, sampleServer._get_time testPlatform 0 (some id) = Except.ok d
          ∧ d.timezone = id) :=
  ⟨rfl, rfl, listed_timezones_resolve testPlatform "UTC" sampleServer 0 rfl rfl⟩

/-- C5: listTimezones returns every identifier of the catalog snapshot exactly once
(the returned sequence is a permutation of the snapshot, which has no duplicates
because it models a Python set), sorted strictly ascending in codepoint-lexicographic
order, and its count field equals the length of the returned sequence; the operation
is a total function of the instance (no failure modes). -/
theorem list_timezones_sorted_complete (self : TimeServer)
    (h : self._available_zones.Nodup) :
    List.Sorted (fun a b => pyStrLt a b = true) (self._get_available_timezones).timezones
    ∧ (self._get_available_timezones).timezones.Perm self._available_zones
    ∧ (self._get_available_timezones).timezones.Nodup
    ∧ (self._get_available_timezones).count
        = (self._get_available_timezones).timezones.length := by
  have hperm : (List.insertionSort (fun a b => pyStrLe a b = true)
      self._available_zones).Perm self._available_zones :=
    List.perm_insertionSort _ _
  have hsle : List.Sorted (fun a b => pyStrLe a b = true)
      (List.insertionSort (fun a b => pyStrLe a b = true) self._available_zones) :=
    List.sorted_insertionSort _ _
  have hnd : (List.insertionSort (fun a b => pyStrLe a b = true)
      self._available_zones).Nodup :=
    hperm.symm.nodup h
  have hslt : List.Sorted (fun a b => pyStrLt a b = true)
      (List.insertionSort (fun a b => pyStrLe a b = true) self._available_zones) :=
    (hsle.and hnd).imp fun hab => pyStrLt_of_pyStrLe_of_ne _ _ hab.1 hab.2
  exact ⟨hslt, hperm, hnd, by
    simp only [TimeServer._get_available_timezones]
    rw [hperm.length_eq]⟩

theorem list_timezones_sorted_complete_witness :
    sampleServer._available_zones.Nodup
    ∧ (List.Sorted (fun a b => pyStrLt a b = true)
          (sampleServer._get_available_timezones).timezones
       ∧ (sampleServer._get_available_timezones).timezones.Perm
            sampleServer._available_zones
       ∧ (sampleServer._get_available_timezones).timezones.Nodup
       ∧ (sampleServer._get_available_timezones).count
           = (sampleServer._get_available_timezones).timezones.length) :=
  ⟨by decide, list_timezones_sorted_complete sampleServer (by decide)⟩

/-- C6: construction with the default UTC succeeds whenever the platform constructor
accepts the key UTC (yielding the UTC zone, offset 0 at the instant — the behaviour
CPython guarantees for UTC), and resolveTime with the timezone argument absent or
empty then uses the stored default and returns a descriptor with timezone UTC and
timezone_offset 0. The Python signature's default parameter value is the same literal
UTC, so the omitted-argument case is this same call. -/
theorem default_utc_resolution (p : Platform) (now : Int) (uz : Zone)
    (h1 : p.ZoneInfo "UTC" = Except.ok uz) (h2 : uz.key = "UTC")
    (h3 : uz.utcoffsetSeconds now = some 0) :
    ∃ self, TimeServer.__init__ p "UTC" = Except.ok self
      ∧ ∀ tz, pyTruthy tz = false →
          ∃ d, self._get_time p now tz = Except.ok d
            ∧ d.timezone = "UTC" ∧ d.timezone_offset = 0 := by
  refine ⟨{ _default_tz := uz, _available_zones := p.available_timezones }, ?_, ?_⟩
  · unfold TimeServer.__init__
    rw [h1]
  · intro tz htz
    refine ⟨_, (TimeServer.get_time_ok_iff _ p now tz _).mpr
      ⟨uz, ?_, ?_, 0, h3, rfl⟩, ?_, ?_⟩
    · unfold resolvesTo
      rw [htz]
      simp
    · intro hcontra
      rw [htz] at hcontra
      cases hcontra
    · exact h2
    · rfl

theorem default_utc_resolution_witness :
    testPlatform.ZoneInfo "UTC" = Except.ok utcZone
    ∧ utcZone.key = "UTC"
    ∧ utcZone.utcoffsetSeconds 0 = some 0
    ∧ (∃ self, TimeServer.__init__ testPlatform "UTC" = Except.ok self
        ∧ ∀ tz, pyTruthy tz = false →
            ∃ d, self._get_time testPlatform 0 tz = Except.ok d
              ∧ d.timezone = "UTC" ∧ d.timezone_offset = 0) :=
  ⟨rfl, rfl, rfl, default_utc_resolution testPlatform 0 utcZone rfl rfl rfl⟩

/-- The descriptor `_get_time` produces for America/New_York on `testPlatform` at
instant 0 (offset -14400 seconds, i.e. -240 whole minutes, DST in effect). -/
def nyDescriptor : TimeDescriptor :=
  { timestamp := 0
    iso_time := "1969-12-31T20:00:00-04:00"
    timezone := "America/New_York"
    timezone_offset := -240
    is_dst := true }

/-- C7: for every successful resolveTime call, timezone_offset is the resolved zone's
UTC offset at the captured instant expressed in whole minutes with any sub-minute
remainder truncated toward zero: the offset in seconds decomposes as
60 * timezone_offset + r with -60 < r < 60 and r weakly carrying the sign of the
offset (so truncation is toward zero for positive and negative offsets alike). -/
theorem offset_minutes_truncated (self : TimeServer) (p : Platform) (now : Int)
    (tz : Option String) (d : TimeDescriptor)
    (hok : self._get_time p now tz = Except.ok d) :
    ∃ z secs r, resolvesTo self p tz z
      ∧ z.utcoffsetSeconds now = some secs
      ∧ secs = 60 * d.timezone_offset + r
      ∧ -60 < r ∧ r < 60
      ∧ (0 ≤ secs → 0 ≤ r) ∧ (secs ≤ 0 → r ≤ 0) := by
  obtain ⟨z, hres, _, secs, hoff, hd⟩ :=
    (TimeServer.get_time_ok_iff self p now tz d).mp hok
  obtain ⟨⟨hb1, hb2⟩, hpos, hneg⟩ := tmod_sixty_bounds secs
  refine ⟨z, secs, Int.tmod secs 60, hres, hoff, ?_, hb1, hb2, hpos, hneg⟩
  have hdo : d.timezone_offset = Int.tdiv secs 60 := by
    rw [hd]
    rfl
  rw [hdo]
  exact (Int.tdiv_add_tmod secs 60).symm

theorem offset_minutes_truncated_witness :
    sampleServer._get_time testPlatform 0 (some "America/New_York")
      = Except.ok nyDescriptor
    ∧ (∃ z secs r, resolvesTo sampleServer testPlatform (some "America/New_York") z
        ∧ z.utcoffsetSeconds 0 = some secs
        ∧ secs = 60 * nyDescriptor.timezone_offset + r
        ∧ -60 < r ∧ r < 60
        ∧ (0 ≤ secs → 0 ≤ r) ∧ (secs ≤ 0 → r ≤ 0)) :=
  ⟨rfl, offset_minutes_truncated sampleServer testPlatform 0
    (some "America/New_York") nyDescriptor rfl⟩

/-- C8: for every successful resolveTime call, is_dst is true iff the resolved zone
reports a daylight-saving adjustment at the captured instant that is neither absent
(None) nor exactly zero; and whenever the resolved zone's adjustment at the instant
is absent or zero — as for UTC, which always reports a zero adjustment — is_dst is
false. -/
theorem is_dst_characterization (self : TimeServer) (p : Platform) (now : Int)
    (tz : Option String) (d : TimeDescriptor)
    (hok : self._get_time p now tz = Except.ok d) :
    (∀ z, resolvesTo self p tz z →
        (d.is_dst = true ↔ ∃ v, z.dstSeconds now = some v ∧ v ≠ 0))
    ∧ (∀ z, resolvesTo self p tz z →
        (z.dstSeconds now = none ∨ z.dstSeconds now = some 0) → d.is_dst = false) := by
  obtain ⟨z0, hres0, _, secs, hoff, hd⟩ :=
    (TimeServer.get_time_ok_iff self p now tz d).mp hok
  constructor
  · intro z hres
    obtain rfl : z0 = z := resolvesTo_unique self p tz z0 z hres0 hres
    rw [hd]
    cases hdst : z0.dstSeconds now
    · simp [hdst]
    · simp [hdst]
  · intro z hres hcase
    obtain rfl : z0 = z := resolvesTo_unique self p tz z0 z hres0 hres
    rw [hd]
    rcases hcase with h | h <;> simp [h]

theorem is_dst_characterization_witness :
    sampleServer._get_time testPlatform 0 (some "America/New_York")
      = Except.ok nyDescriptor
    ∧ ((∀ z, resolvesTo sampleServer testPlatform (some "America/New_York") z →
          (nyDescriptor.is_dst = true ↔ ∃ v, z.dstSeconds 0 = some v ∧ v ≠ 0))
       ∧ (∀ z, resolvesTo sampleServer testPlatform (some "America/New_York") z →
          (z.dstSeconds 0 = none ∨ z.dstSeconds 0 = some 0) →
          nyDescriptor.is_dst = false)) :=
  ⟨rfl, is_dst_characterization sampleServer testPlatform 0
    (some "America/New_York") nyDescriptor rfl⟩

/-- Statement-by-statement stateful reading of `_get_time`: a Python method may
rebind attributes of `self`; the body of `_get_time` (server.py lines 100-133)
performs reads only — no statement assigns to `self` — so the translation returns
the instance it received unchanged alongside the result. -/
def TimeServer._get_time_stateful (self : TimeServer) (p : Platform) (now : Int)
    (timezone : Option String) : TimeServer × Except PyErr TimeDescriptor :=
  (self, self._get_time p now timezone)

/-- Statement-by-statement stateful reading of `_get_available_timezones` (server.py
lines 135-144): the body only reads `self._available_zones` and builds a fresh list
from it (`sorted(list(...))` copies the set's elements into a new list object),
assigning nothing to `self`. -/
def TimeServer._get_available_timezones_stateful (self : TimeServer) :
    TimeServer × ZonesResult :=
  (self, self._get_available_timezones)

/-- C9: the two operations leave the instance unchanged (the stored default zone and
catalog snapshot are never mutated after construction), interleaving a call does not
change any later call's output, and listTimezones is a function of the instance's
snapshot alone, rebuilt fresh from it on every call — so nothing a caller does with a
returned value can alter the catalog or the output of later calls. -/
theorem operations_do_not_mutate (self other : TimeServer) (p : Platform) (now : Int)
    (tz : Option String) :
    (self._get_time_stateful p now tz).1 = self
    ∧ (self._get_available_timezones_stateful).1 = self
    ∧ ((self._get_time_stateful p now tz).1)._get_available_timezones_stateful.2
        = self._get_available_timezones_stateful.2
    ∧ ((self._get_available_timezones_stateful).1)._get_time_stateful p now tz
        = self._get_time_stateful p now tz
    ∧ (other._available_zones = self._available_zones →
        other._get_available_timezones = self._get_available_timezones) := by
  refine ⟨rfl, rfl, rfl, rfl, fun h => ?_⟩
  unfold TimeServer._get_available_timezones
  rw [h]

theorem operations_do_not_mutate_witness :
    (sampleServer._get_time_stateful testPlatform 0 none).1 = sampleServer
    ∧ (sampleServer._get_available_timezones_stateful).1 = sampleServer
    ∧ ((sampleServer._get_time_stateful testPlatform 0 none).1)._get_available_timezones_stateful.2
        = sampleServer._get_available_timezones_stateful.2
    ∧ ((sampleServer._get_available_timezones_stateful).1)._get_time_stateful testPlatform 0 none
        = sampleServer._get_time_stateful testPlatform 0 none
    ∧ (sampleServer._available_zones = sampleServer._available_zones →
        sampleServer._get_available_timezones = sampleServer._get_available_timezones) :=
  operations_do_not_mutate sampleServer sampleServer testPlatform 0 none

/-- C10: when the timezone argument is absent or the empty string, resolveTime uses
the stored default zone and performs neither validation check: its result does not
depend on the platform at all (no zone construction and no catalog consultation — in
particular it succeeds even when the default zone's key is absent from the catalog
snapshot, as the witness instance exhibits), and the only possible failure is the
defensive undefined-offset error, never a validation TimeZoneError. -/
theorem default_path_no_validation (self : TimeServer) (p q : Platform) (now : Int)
    (tz : Option String) (htz : pyTruthy tz = false) :
    self._get_time p now tz = self._get_time q now tz
    ∧ (∀ secs, self._default_tz.utcoffsetSeconds now = some secs →
        ∃ d, self._get_time p now tz = Except.ok d
          ∧ d.timezone = self._default_tz.key)
    ∧ (∀ e, self._get_time p now tz = Except.error e →
        e = PyErr.timeZoneError ("Invalid timezone offset for " ++ pyStrOf tz)) := by
  refine ⟨?_, ?_, ?_⟩
  · unfold TimeServer._get_time
    simp [htz]
  · intro secs hoff
    refine ⟨_, (TimeServer.get_time_ok_iff self p now tz _).mpr
      ⟨self._default_tz, ?_, ?_, secs, hoff, rfl⟩, rfl⟩
    · unfold resolvesTo
      rw [htz]
      simp
    · intro hc
      rw [htz] at hc
      cases hc
  · intro e he
    unfold TimeServer._get_time at he
    simp [htz] at he
    cases hoff : self._default_tz.utcoffsetSeconds now
    · rw [hoff] at he
      simp at he
      exact he.symm
    · rw [hoff] at he
      simp at he

theorem default_path_no_validation_witness :
    pyTruthy (some "") = false
    ∧ (offCatalogServer._get_time testPlatform 0 (some "")
          = offCatalogServer._get_time traversalPlatform 0 (some "")
       ∧ (∀ secs, offCatalogServer._default_tz.utcoffsetSeconds 0 = some secs →
            ∃ d, offCatalogServer._get_time testPlatform 0 (some "") = Except.ok d
              ∧ d.timezone = offCatalogServer._default_tz.key)
       ∧ (∀ e, offCatalogServer._get_time testPlatform 0 (some "") = Except.error e →
            e = PyErr.timeZoneError ("Invalid timezone offset for " ++ pyStrOf (some "")))) :=
  ⟨rfl, default_path_no_validation offCatalogServer testPlatform traversalPlatform 0
    (some "") rfl⟩
